import Mathlib

/-!
Shallow embedding of the KONECT MCP server core: the `query_database`
tool pipeline of `index.ts` and the model loader of `loadModels.ts`.

Conventions of the embedding:
* A MongoDB document is a flat record of field names to integer values;
  the claims under study depend only on how many documents match a
  filter, never on richer value types.
* JavaScript numbers in tool arguments are modelled as `Int`.
* `process.env.NODE_PATH` is modelled as `Option String` (an environment
  variable can be unset), and `Module.prototype.require` as a `Nat`
  identifier (installing the override produces a fresh identifier,
  restoring assigns the saved one back).
* Exceptions are modelled with `Except String`; a `try/catch` is a
  `match` on the `Except` value.
* The MongoDB store is an external collaborator: `StoreBehavior` is
  either a document collection on which `find`/`countDocuments` succeed
  with MongoDB's filter/sort/skip/limit semantics, or a store-level
  failure (malformed operator, mixed projection rejected by the server,
  connection loss, ...) thrown at execution time.
-/

/-- A stored document: field names mapped to integer values. -/
abbrev Doc : Type := List (String × Int)

/-- The `AVAILABLE_MODELS` constant of `index.ts`: the zod enum of model
names the tool accepts. -/
def AVAILABLE_MODELS : List String :=
  ["User", "Vehicle", "Booking", "Transaction", "Review", "AddOn",
   "Conversation", "Message", "Document", "PaymentMethod", "PayoutMethod",
   "Notification", "Favorite", "SupportRequest", "Calendar", "BlockedDate",
   "Role", "Keystore", "ApiKey"]

/-- Raw tool-call arguments as they arrive from the MCP client, before
the SDK runs the zod `inputSchema`.  Optional fields are `Option`. -/
structure RawArgs where
  model : String
  query : List (String × Int)
  projection : Option (List (String × Int))
  sort : Option (List (String × Int))
  limit : Option Int
  skip : Option Int
  populate : Option (List String)
deriving DecidableEq, Repr

/-- Arguments after zod validation and defaulting, as seen by the tool
handler of `index.ts`. -/
structure Args where
  model : String
  query : List (String × Int)
  projection : Option (List (String × Int))
  sort : Option (List (String × Int))
  limit : Int
  skip : Int
  populate : List String
deriving DecidableEq, Repr

/-- Zod `z.enum(AVAILABLE_MODELS)`: the model name must be one of the
nineteen declared names. -/
def parseModel (m : String) : Except String String :=
  if AVAILABLE_MODELS.contains m then Except.ok m
  else Except.error "invalid enum value for model"

/-- Zod `z.record(z.union([z.literal(1), z.literal(0)])).optional()` for
`projection`: each value must be exactly 1 or 0.  Nothing rejects a
record that mixes 1-values and 0-values. -/
def parseProjection :
    Option (List (String × Int)) → Except String (Option (List (String × Int)))
  | none => Except.ok none
  | some p =>
    if p.all (fun kv => kv.2 = 1 ∨ kv.2 = 0) then Except.ok (some p)
    else Except.error "projection values must be 1 or 0"

/-- Zod `z.record(z.union([z.literal(1), z.literal(-1)])).optional()` for
`sort`. -/
def parseSort :
    Option (List (String × Int)) → Except String (Option (List (String × Int)))
  | none => Except.ok none
  | some p =>
    if p.all (fun kv => kv.2 = 1 ∨ kv.2 = -1) then Except.ok (some p)
    else Except.error "sort values must be 1 or -1"

/-- Zod `z.number().min(1).max(1000).default(100)` for `limit`: an absent
limit defaults to 100; a present limit outside `[1, 1000]` is rejected
(zod `min`/`max` are validation checks, not clamps). -/
def parseLimit : Option Int → Except String Int
  | none => Except.ok 100
  | some n =>
    if 1 ≤ n ∧ n ≤ 1000 then Except.ok n
    else Except.error "limit must be between 1 and 1000"

/-- Zod `z.number().min(0).default(0)` for `skip`. -/
def parseSkip : Option Int → Except String Int
  | none => Except.ok 0
  | some n =>
    if 0 ≤ n then Except.ok n
    else Except.error "skip must be at least 0"

/-- The MCP SDK validates the tool arguments against the registered zod
`inputSchema` before invoking the handler; a failing parse yields an
invalid-params error and the handler never runs.  Zod reports all issues
at once while `Except` short-circuits at the first; the two agree on
which argument sets are accepted, which is all the claims depend on. -/
def zodParseArgs (raw : RawArgs) : Except String Args :=
  match parseModel raw.model with
  | Except.error e => Except.error e
  | Except.ok m =>
    match parseProjection raw.projection with
    | Except.error e => Except.error e
    | Except.ok proj =>
      match parseSort raw.sort with
      | Except.error e => Except.error e
      | Except.ok srt =>
        match parseLimit raw.limit with
        | Except.error e => Except.error e
        | Except.ok lim =>
          match parseSkip raw.skip with
          | Except.error e => Except.error e
          | Except.ok sk =>
            Except.ok { model := m, query := raw.query, projection := proj,
                        sort := srt, limit := lim, skip := sk,
                        populate := raw.populate.getD [] }

/-- The `actualLimit` computation of the second handler variant in
`index.ts`: `Math.min(limit, 1000)`.  Note it does not raise a
sub-minimum limit to 1. -/
def actualLimit (limit : Int) : Int := min limit 1000

/-- One entry of the external model catalog
(`drivio-web-service/database/mongoose/models`): requiring the entry
either registers a schema under `name` or throws with a reason. -/
inductive CatalogEntry where
  | ok (name : String)
  | err (name : String) (reason : String)
deriving DecidableEq, Repr

/-- Process-wide mutable state touched by the server: the `dbConnected`
flag and mongoose's registered-model list from `index.ts`, plus the
`Module.prototype.require` reference and the `NODE_PATH` environment
variable manipulated by `loadModels.ts`. -/
structure ProcState where
  dbConnected : Bool
  registered : List String
  requireFn : Nat
  nodePath : Option String
deriving DecidableEq, Repr

/-- The resolved `drivio-web-service` directory
(`resolve(__dirname, "../../drivio-web-service")` in `loadModels.ts`);
the exact path text is irrelevant to every claim. -/
def drivioPath : String := "/home/app/Drivio-Application/drivio-web-service"

/-- The `NODE_PATH` value installed during the load pass:
`drivioPath + (originalNodePath ? ":" + originalNodePath : "")`. -/
def nodePathDuringLoad (orig : String) : String :=
  if orig = "" then drivioPath else drivioPath ++ ":" ++ orig

/-- Models the external catalog load triggered by
`modelRequire(join(modelsPath, "index.js"))`, following the description
in `loadModels.ts`: `models/index.js` requires each model file in
sequence and each file registers its schema with `mongoose.model()`.
CommonJS `require` has no per-file error handling, so a throw from one
entry propagates immediately: entries already required stay registered
and later entries are never reached.  Returns the outcome together with
the registered-name list. -/
def requireAll : List CatalogEntry → List String → Except String Unit × List String
  | [], regs => (Except.ok (), regs)
  | CatalogEntry.ok n :: rest, regs => requireAll rest (regs ++ [n])
  | CatalogEntry.err _ reason :: _, regs => (Except.error reason, regs)

/-- `loadModels()` of `loadModels.ts`: save `NODE_PATH` (read through
`|| ""`, collapsing unset to the empty string) and
`Module.prototype.require`; install the load-time `NODE_PATH` and the
mongoose-injecting require override; require the catalog; and in a
`finally` block assign the saved require function back and assign the
saved `NODE_PATH` string back (assignment always leaves the variable
set).  The `Except` result is the exception, if any, propagating out. -/
def loadModels (catalog : List CatalogEntry) (s : ProcState) :
    Except String Unit × ProcState :=
  let originalNodePath := s.nodePath.getD ""
  let originalRequire := s.requireFn
  let s1 : ProcState :=
    { s with nodePath := some (nodePathDuringLoad originalNodePath),
             requireFn := s.requireFn + 1 }
  let r := requireAll catalog s1.registered
  (r.1, { s1 with registered := r.2, requireFn := originalRequire,
                  nodePath := some originalNodePath })

/-- `connectDatabase()` of `index.ts` (first variant, the one the claims
cite): return immediately when `dbConnected` is already true; otherwise
`mongoose.connect` (which may throw, modelled by the `connectOk` flag),
then set `dbConnected := true`, then `loadModels()`.  An exception from
`loadModels` propagates after the flag is already set. -/
def connectDatabase (catalog : List CatalogEntry) (connectOk : Bool)
    (s : ProcState) : Except String Unit × ProcState :=
  if s.dbConnected then (Except.ok (), s)
  else if connectOk then loadModels catalog { s with dbConnected := true }
  else (Except.error "MongoDB connection failed", s)

/-- The field lookup used by the sort comparator: a document's value at a
key, 0 when absent. -/
def fieldVal (d : Doc) (k : String) : Int :=
  ((d.find? (fun p => p.1 = k)).map (fun p => p.2)).getD 0

/-- MongoDB's comparison order for a sort specification: compare by the
first key (direction 1 ascending, -1 descending), fall through to later
keys on ties. -/
def docLe : List (String × Int) → Doc → Doc → Bool
  | [], _, _ => true
  | (k, dir) :: rest, a, b =>
    let va := fieldVal a k
    let vb := fieldVal b k
    if va = vb then docLe rest a b
    else if dir = -1 then vb < va
    else va < vb

/-- Insertion into a sorted list, for the sort model. -/
def insertDoc (le : Doc → Doc → Bool) (d : Doc) : List Doc → List Doc
  | [] => [d]
  | e :: es => if le d e then d :: e :: es else e :: insertDoc le d es

/-- Insertion sort, modelling the store's sort stage. -/
def insertionSort (le : Doc → Doc → Bool) : List Doc → List Doc
  | [] => []
  | d :: ds => insertDoc le d (insertionSort le ds)

/-- The optional `.sort(sort)` stage of the query: absent sort leaves the
collection order, a present specification orders by `docLe`. -/
def sortDocs : Option (List (String × Int)) → List Doc → List Doc
  | none, l => l
  | some sp, l => insertionSort (docLe sp) l

/-- Equality-filter matching, the concrete instance of MongoDB filter
semantics sufficient for the claims: a document matches when it carries
every key/value pair of the filter. -/
def docMatches (flt : List (String × Int)) (d : Doc) : Bool :=
  flt.all (fun kv => d.any (fun kv2 => kv2.1 = kv.1 ∧ kv2.2 = kv.2))

/-- The `.select(projection)` stage: with some 1-value the projection is
inclusion mode (keep the fields listed with 1), otherwise exclusion mode
(drop the fields listed).  MongoDB's rejection of mixed projections, like
every other store-side failure, is modelled by `StoreBehavior.fail`; the
`_id` special case is elided as no claim touches it. -/
def applyProj : Option (List (String × Int)) → Doc → Doc
  | none, d => d
  | some proj, d =>
    if proj.any (fun kv => kv.2 = 1) then
      d.filter (fun f => proj.any (fun kv => kv.1 = f.1 ∧ kv.2 = 1))
    else
      d.filter (fun f => ¬ proj.any (fun kv => kv.1 = f.1))

/-- The external MongoDB store as the handler observes it: either a
collection of documents on which execution succeeds, or a failure thrown
at `exec` time with the store's message. -/
inductive StoreBehavior where
  | ok (docs : List Doc)
  | fail (msg : String)
deriving DecidableEq, Repr

/-- The success envelope serialized by the handler: `success`, `model`,
`count`, `totalCount`, `skip`, `limit`, `hasMore`, `results`. -/
structure Envelope where
  success : Bool
  model : String
  count : Nat
  totalCount : Nat
  skip : Int
  limit : Int
  hasMore : Bool
  results : List Doc
deriving DecidableEq, Repr

/-- A tool response: the success envelope, a handler-produced failure
text (unregistered model, or the catch block's `Database error:`
message), or the SDK-level rejection of arguments that fail the zod
`inputSchema`.  The JSON serialization of `index.ts` is injective on
these shapes, so they are kept structured here. -/
inductive ToolResponse where
  | success (env : Envelope)
  | failure (text : String)
  | invalidParams (msg : String)
deriving DecidableEq, Repr

/-- Outcome of one tool call: the response, the process state afterwards,
and whether execution reached the store (`exec`/`countDocuments`). -/
structure CallOutcome where
  response : ToolResponse
  state : ProcState
  storeCalled : Bool
deriving DecidableEq, Repr

/-- The not-registered failure text of `index.ts`:
`Model "X" is not registered. Available: ...`. -/
def notRegisteredMsg (m : String) (regs : List String) : String :=
  "Model \"" ++ m ++ "\" is not registered. Available: " ++
    String.intercalate ", " regs

/-- The success envelope built by the handler from validated arguments
and the store's collection: filter, sort, skip, limit, project, then
report `count = results.length`, `totalCount` over the filter alone, and
`hasMore = skip + results.length < totalCount`.  Population replaces
reference fields with resolved documents inline and never changes how
many documents come back, so it is elided from the envelope model. -/
def buildEnv (args : Args) (docs : List Doc) : Envelope :=
  let matched := docs.filter (docMatches args.query)
  let results :=
    (((sortDocs args.sort matched).drop args.skip.toNat).take
        args.limit.toNat).map (applyProj args.projection)
  { success := true
    model := args.model
    count := results.length
    totalCount := matched.length
    skip := args.skip
    limit := args.limit
    hasMore := decide (args.skip + (results.length : Int) < (matched.length : Int))
    results := results }

/-- The `query_database` handler body of `index.ts` (first variant): the
whole body sits in a `try` whose `catch` returns
`Database error: <message>`.  Connect lazily when `dbConnected` is
false; return the not-registered failure when the model name is absent
from `mongoose.modelNames()`; otherwise run the query against the store
and assemble the envelope. -/
def handleQuery (catalog : List CatalogEntry) (connectOk : Bool)
    (store : StoreBehavior) (args : Args) (s : ProcState) : CallOutcome :=
  match (if s.dbConnected then (Except.ok (), s)
         else connectDatabase catalog connectOk s) with
  | (Except.error e, s1) =>
    { response := ToolResponse.failure ("Database error: " ++ e),
      state := s1, storeCalled := false }
  | (Except.ok _, s1) =>
    if s1.registered.contains args.model then
      match store with
      | StoreBehavior.fail msg =>
        { response := ToolResponse.failure ("Database error: " ++ msg),
          state := s1, storeCalled := true }
      | StoreBehavior.ok docs =>
        { response := ToolResponse.success (buildEnv args docs),
          state := s1, storeCalled := true }
    else
      { response := ToolResponse.failure (notRegisteredMsg args.model s1.registered),
        state := s1, storeCalled := false }

/-- One complete `query_database` call as served over MCP: the SDK
validates the raw arguments against the zod schema and rejects failing
calls without invoking the handler; validated arguments reach
`handleQuery`. -/
def serveCall (catalog : List CatalogEntry) (connectOk : Bool)
    (store : StoreBehavior) (raw : RawArgs) (s : ProcState) : CallOutcome :=
  match zodParseArgs raw with
  | Except.error m =>
    { response := ToolResponse.invalidParams m, state := s, storeCalled := false }
  | Except.ok args => handleQuery catalog connectOk store args s

/-- A fully loaded steady state: connected, all nineteen models
registered. -/
def connectedState : ProcState :=
  { dbConnected := true, registered := AVAILABLE_MODELS,
    requireFn := 0, nodePath := some "" }

/-- The healthy catalog: every declared model registers. -/
def catalogAll : List CatalogEntry := AVAILABLE_MODELS.map CatalogEntry.ok

/-- Process state at startup: not connected, nothing registered,
`NODE_PATH` unset. -/
def freshState : ProcState :=
  { dbConnected := false, registered := [], requireFn := 0, nodePath := none }

/-- A call whose limit exceeds the declared maximum. -/
def rawLimitTooBig : RawArgs :=
  { model := "User", query := [], projection := none, sort := none,
    limit := some 1001, skip := none, populate := none }

/-- A three-entry catalog whose second entry fails to register. -/
def catalogBad : List CatalogEntry :=
  [CatalogEntry.ok "A", CatalogEntry.err "B" "schema error", CatalogEntry.ok "C"]

/-- A call whose projection mixes an include key and an exclude key. -/
def rawMixedProj : RawArgs :=
  { model := "User", query := [],
    projection := some [("name", 1), ("password", 0)], sort := none,
    limit := none, skip := none, populate := none }

/-- MongoDB's rejection message for a mixed projection. -/
def mixedProjMsg : String :=
  "Cannot do exclusion on field password in inclusion projection"

/-- The pagination example of the specification: limit 10, skip 20. -/
def rawPageEx : RawArgs :=
  { model := "User", query := [], projection := none, sort := none,
    limit := some 10, skip := some 20, populate := none }

/-- The envelope the pagination example produces over a 25-document
collection. -/
def envPage : Envelope :=
  { success := true, model := "User", count := 5, totalCount := 25,
    skip := 20, limit := 10, hasMore := false,
    results := List.replicate 5 ([] : Doc) }

/-- A call relying on the limit and skip defaults. -/
def rawUserAll : RawArgs :=
  { model := "User", query := [], projection := none, sort := none,
    limit := none, skip := none, populate := none }

/-- The envelope `rawUserAll` produces over a 3-document collection. -/
def envThree : Envelope :=
  { success := true, model := "User", count := 3, totalCount := 3,
    skip := 0, limit := 100, hasMore := false,
    results := List.replicate 3 ([] : Doc) }

/-- A two-entry catalog whose second entry fails to register. -/
def catalogPartial : List CatalogEntry :=
  [CatalogEntry.ok "User", CatalogEntry.err "Vehicle" "boom"]

/-- The state left by a partial load of `catalogPartial`: connected,
only `User` registered. -/
def partialState : ProcState :=
  { dbConnected := true, registered := ["User"], requireFn := 0, nodePath := some "" }

/-- Validated arguments querying the `Vehicle` model. -/
def argsVehicle : Args :=
  { model := "Vehicle", query := [], projection := none, sort := none,
    limit := 100, skip := 0, populate := [] }

/-- Validated arguments querying the `User` model. -/
def argsUser : Args :=
  { model := "User", query := [], projection := none, sort := none,
    limit := 100, skip := 0, populate := [] }

/-- A store failure text standing for a lost connection. -/
def connLossMsg : String := "connection timed out"

/-- `loadModels` never touches the `dbConnected` flag. -/
lemma loadModels_dbConnected (catalog : List CatalogEntry) (s : ProcState) :
    ((loadModels catalog s).2).dbConnected = s.dbConnected := rfl

/-- Requiring a catalog whose entries succeed up to a failing one
registers exactly the names before the failure and throws its reason. -/
lemma requireAll_append (pre : List String) (n r : String)
    (post : List CatalogEntry) (regs : List String) :
    requireAll (pre.map CatalogEntry.ok ++ CatalogEntry.err n r :: post) regs
      = (Except.error r, regs ++ pre) := by
  induction pre generalizing regs with
  | nil => simp [requireAll]
  | cons p pre ih =>
    have hstep : requireAll ((p :: pre).map CatalogEntry.ok ++ CatalogEntry.err n r :: post) regs
        = requireAll (pre.map CatalogEntry.ok ++ CatalogEntry.err n r :: post) (regs ++ [p]) := rfl
    rw [hstep, ih]
    simp

/-- A limit accepted by the zod check lies in `[1, 1000]`. -/
lemma parseLimit_ok (o : Option Int) (n : Int) (h : parseLimit o = Except.ok n) :
    1 ≤ n ∧ n ≤ 1000 := by
  cases o with
  | none => simp [parseLimit] at h; omega
  | some m =>
    simp only [parseLimit] at h
    split at h
    · cases h; assumption
    · cases h

/-- A skip accepted by the zod check is non-negative. -/
lemma parseSkip_ok (o : Option Int) (n : Int) (h : parseSkip o = Except.ok n) :
    0 ≤ n := by
  cases o with
  | none => simp [parseSkip] at h; omega
  | some m =>
    simp only [parseSkip] at h
    split at h
    · cases h; assumption
    · cases h

/-- Arguments that pass the full zod schema respect the declared
limit/skip bounds. -/
lemma zodParseArgs_ok_bounds (raw : RawArgs) (args : Args)
    (h : zodParseArgs raw = Except.ok args) :
    1 ≤ args.limit ∧ args.limit ≤ 1000 ∧ 0 ≤ args.skip := by
  unfold zodParseArgs at h
  split at h
  · cases h
  split at h
  · cases h
  split at h
  · cases h
  split at h
  · cases h
  split at h
  · cases h
  rename_i x1 lim hlim x2 sk hsk
  cases h
  exact ⟨(parseLimit_ok _ _ hlim).1, (parseLimit_ok _ _ hlim).2, parseSkip_ok _ _ hsk⟩

/-- If the limit check fails, the whole zod parse fails. -/
lemma zodParseArgs_error_of_limit (raw : RawArgs) (e : String)
    (h : parseLimit raw.limit = Except.error e) :
    ∃ m, zodParseArgs raw = Except.error m := by
  unfold zodParseArgs
  split
  · exact ⟨_, rfl⟩
  · split
    · exact ⟨_, rfl⟩
    · split
      · exact ⟨_, rfl⟩
      · rw [h]
        exact ⟨_, rfl⟩

/-- A success envelope out of the handler comes from a working store and
is exactly `buildEnv` of the validated arguments. -/
lemma handleQuery_success_inv (catalog : List CatalogEntry) (co : Bool)
    (store : StoreBehavior) (args : Args) (s : ProcState) (env : Envelope)
    (h : (handleQuery catalog co store args s).response = ToolResponse.success env) :
    ∃ docs, store = StoreBehavior.ok docs ∧ env = buildEnv args docs := by
  unfold handleQuery at h
  split at h
  · cases h
  · split at h
    · split at h
      · cases h
      · rename_i docs
        exact ⟨docs, rfl, (ToolResponse.success.injEq _ _ ▸ h).symm⟩
    · cases h

/-- A success envelope out of a served call passed zod validation and is
`buildEnv` of the validated arguments. -/
lemma serveCall_success_inv (catalog : List CatalogEntry) (co : Bool)
    (store : StoreBehavior) (raw : RawArgs) (s : ProcState) (env : Envelope)
    (h : (serveCall catalog co store raw s).response = ToolResponse.success env) :
    ∃ args docs, zodParseArgs raw = Except.ok args ∧ store = StoreBehavior.ok docs
      ∧ env = buildEnv args docs := by
  unfold serveCall at h
  split at h
  · cases h
  · rename_i args hargs
    obtain ⟨docs, hd, he⟩ := handleQuery_success_inv _ _ _ _ _ _ h
    exact ⟨args, docs, hargs, hd, he⟩

/-- Inserting into the sort accumulator adds one element. -/
lemma length_insertDoc (le : Doc → Doc → Bool) (d : Doc) (l : List Doc) :
    (insertDoc le d l).length = l.length + 1 := by
  induction l with
  | nil => rfl
  | cons e es ih =>
    simp only [insertDoc]
    split
    · simp
    · simp [ih]

/-- Sorting preserves length. -/
lemma length_insertionSort (le : Doc → Doc → Bool) (l : List Doc) :
    (insertionSort le l).length = l.length := by
  induction l with
  | nil => rfl
  | cons d ds ih => simp [insertionSort, length_insertDoc, ih]

/-- The sort stage preserves the number of documents. -/
lemma length_sortDocs (sp : Option (List (String × Int))) (l : List Doc) :
    (sortDocs sp l).length = l.length := by
  cases sp with
  | none => rfl
  | some spec => simp [sortDocs, length_insertionSort]

/-- The envelope's count is bounded by the applied limit and by the total
count over the filter alone. -/
lemma buildEnv_count_le (args : Args) (docs : List Doc) :
    (buildEnv args docs).count ≤ args.limit.toNat
      ∧ (buildEnv args docs).count ≤ (buildEnv args docs).totalCount := by
  unfold buildEnv
  simp only [List.length_map, List.length_take, List.length_drop, length_sortDocs]
  constructor
  · exact min_le_left _ _
  · omega

/-- C1 (counterexample): a `query_database` call with limit 1001 — outside
`[1, 1000]` — is rejected by the zod input schema before the handler runs
and the store is never called, refuting the claim that the engine clamps
the limit to the nearest bound and executes the query. -/
theorem c1_claim_counterexample :
    (serveCall catalogAll true (StoreBehavior.ok []) rawLimitTooBig connectedState).response
        = ToolResponse.invalidParams "limit must be between 1 and 1000"
      ∧ (serveCall catalogAll true (StoreBehavior.ok []) rawLimitTooBig connectedState).storeCalled
        = false :=
  ⟨rfl, rfl⟩

/-- C1 (amended): a `query_database` call whose limit lies outside
`[1, 1000]` is rejected by input-schema validation — not clamped, and the
query is not executed; an unspecified limit defaults to 100 and an
unspecified skip defaults to 0. -/
theorem c1_limit_rejected_and_defaults :
    (∀ (catalog : List CatalogEntry) (co : Bool) (store : StoreBehavior)
        (raw : RawArgs) (s : ProcState) (n : Int),
      raw.limit = some n → (n < 1 ∨ 1000 < n) →
      (∃ m, (serveCall catalog co store raw s).response = ToolResponse.invalidParams m)
        ∧ (serveCall catalog co store raw s).storeCalled = false)
    ∧ parseLimit none = Except.ok 100 ∧ parseSkip none = Except.ok 0 := by
  refine ⟨?_, rfl, rfl⟩
  intro catalog co store raw s n hn hout
  have hlim : parseLimit raw.limit = Except.error "limit must be between 1 and 1000" := by
    rw [hn]
    simp only [parseLimit]
    rw [if_neg (by omega)]
  obtain ⟨m, hm⟩ := zodParseArgs_error_of_limit raw _ hlim
  exact ⟨⟨m, by simp [serveCall, hm]⟩, by simp [serveCall, hm]⟩

/-- C1 (witness): the amended theorem applied at the concrete limit 1001
from an unloaded starting state. -/
theorem c1_limit_rejected_witness :
    rawLimitTooBig.limit = some 1001 ∧ ((1001 : Int) < 1 ∨ (1000 : Int) < 1001)
      ∧ ((∃ m, (serveCall catalogAll true (StoreBehavior.ok []) rawLimitTooBig freshState).response
            = ToolResponse.invalidParams m)
        ∧ (serveCall catalogAll true (StoreBehavior.ok []) rawLimitTooBig freshState).storeCalled
          = false) :=
  ⟨rfl, by omega,
    c1_limit_rejected_and_defaults.1 catalogAll true (StoreBehavior.ok [])
      rawLimitTooBig freshState 1001 rfl (by omega)⟩

/-- C2 (counterexample): on a three-entry catalog whose second entry fails,
`loadModels` throws the entry's error instead of completing, and the third
entry is never registered — only the first is; no failure reason is
recorded anywhere (the process state has no failure set at all), refuting
the claim that the pass never throws and continues past a bad entry. -/
theorem c2_claim_counterexample :
    (loadModels catalogBad freshState).1 = Except.error "schema error"
      ∧ ((loadModels catalogBad freshState).2).registered = ["A"] :=
  ⟨rfl, rfl⟩

/-- C2 (amended): `loadModels` aborts at the first failing catalog entry
and propagates that entry's error to its caller: entries registered
before the failure remain registered, entries after it are never
attempted, no failure record is kept, and the require override and
`NODE_PATH` are still restored by the `finally` block. -/
theorem c2_load_aborts_at_first_failure :
    ∀ (pre : List String) (n r : String) (post : List CatalogEntry) (s : ProcState),
      loadModels (pre.map CatalogEntry.ok ++ CatalogEntry.err n r :: post) s
        = (Except.error r,
           { s with registered := s.registered ++ pre,
                    nodePath := some (s.nodePath.getD "") }) := by
  intro pre n r post s
  simp only [loadModels, requireAll_append]

/-- C3 (counterexample): the mixed projection `name: 1, password: 0`
passes the zod input schema, the handler calls the store with it, and the
store's own rejection comes back through the generic catch as a
`Database error:` text — refuting the claim that such a request is
rejected as `InvalidShape` before any store call. -/
theorem c3_claim_counterexample :
    zodParseArgs rawMixedProj
        = Except.ok { model := "User", query := [],
                      projection := some [("name", 1), ("password", 0)],
                      sort := none, limit := 100, skip := 0, populate := [] }
      ∧ (serveCall catalogAll true (StoreBehavior.fail mixedProjMsg) rawMixedProj
            connectedState).storeCalled = true
      ∧ (serveCall catalogAll true (StoreBehavior.fail mixedProjMsg) rawMixedProj
            connectedState).response
          = ToolResponse.failure ("Database error: " ++ mixedProjMsg) :=
  ⟨rfl, rfl, rfl⟩

/-- C3 (amended): input validation only checks each projection value is
1 or 0 and accepts records mixing both; such a request reaches the store,
and a store-side rejection surfaces through the generic catch as a
`Database error:` failure text, not as a pre-store engine rejection. -/
theorem c3_mixed_projection_reaches_store :
    (∀ (proj : List (String × Int)),
      proj.all (fun kv => kv.2 = 1 ∨ kv.2 = 0) = true →
      parseProjection (some proj) = Except.ok (some proj))
    ∧ (∀ (catalog : List CatalogEntry) (co : Bool) (msg : String)
        (args : Args) (s : ProcState),
      s.dbConnected = true → s.registered.contains args.model = true →
      (handleQuery catalog co (StoreBehavior.fail msg) args s).storeCalled = true
        ∧ (handleQuery catalog co (StoreBehavior.fail msg) args s).response
            = ToolResponse.failure ("Database error: " ++ msg)) := by
  constructor
  · intro proj hall
    simp only [parseProjection]
    rw [if_pos hall]
  · intro catalog co msg args s hconn hreg
    simp at hreg
    constructor <;> simp [handleQuery, hconn, hreg]

/-- C3 (witness): the amended theorem applied to the concrete mixed
projection and to a store that rejects it. -/
theorem c3_mixed_projection_witness :
    ([("name", (1 : Int)), ("password", 0)].all (fun kv => kv.2 = 1 ∨ kv.2 = 0) = true)
      ∧ parseProjection (some [("name", 1), ("password", 0)])
          = Except.ok (some [("name", 1), ("password", 0)])
      ∧ connectedState.dbConnected = true
      ∧ connectedState.registered.contains "User" = true
      ∧ (handleQuery catalogAll true (StoreBehavior.fail mixedProjMsg)
            { model := "User", query := [],
              projection := some [("name", 1), ("password", 0)], sort := none,
              limit := 100, skip := 0, populate := [] } connectedState).storeCalled = true :=
  ⟨by decide,
   c3_mixed_projection_reaches_store.1 [("name", 1), ("password", 0)] (by decide),
   rfl, rfl,
   (c3_mixed_projection_reaches_store.2 catalogAll true mixedProjMsg
      { model := "User", query := [],
        projection := some [("name", 1), ("password", 0)], sort := none,
        limit := 100, skip := 0, populate := [] } connectedState rfl rfl).1⟩

/-- C4: in every successful `query_database` envelope, `hasMore` is true
exactly when `skip + returnedCount < totalCount`; and on the concrete
example — 25 matching documents, skip 20, limit 10 — the call returns
count 5 with `hasMore = false`. -/
theorem c4_hasMore_iff :
    (∀ (catalog : List CatalogEntry) (co : Bool) (store : StoreBehavior)
        (raw : RawArgs) (s : ProcState) (env : Envelope),
      (serveCall catalog co store raw s).response = ToolResponse.success env →
      (env.hasMore = true ↔ env.skip + (env.count : Int) < (env.totalCount : Int)))
    ∧ (serveCall catalogAll true (StoreBehavior.ok (List.replicate 25 ([] : Doc)))
          rawPageEx connectedState).response = ToolResponse.success envPage := by
  constructor
  · intro catalog co store raw s env h
    obtain ⟨args, docs, hargs, hstore, henv⟩ := serveCall_success_inv _ _ _ _ _ _ h
    subst henv
    simp [buildEnv]
  · rfl

/-- C4 (witness): the `hasMore` characterization applied to the concrete
pagination example. -/
theorem c4_hasMore_witness :
    ((serveCall catalogAll true (StoreBehavior.ok (List.replicate 25 ([] : Doc)))
        rawPageEx connectedState).response = ToolResponse.success envPage)
      ∧ (envPage.hasMore = true
          ↔ envPage.skip + (envPage.count : Int) < (envPage.totalCount : Int)) :=
  ⟨rfl, c4_hasMore_iff.1 catalogAll true (StoreBehavior.ok (List.replicate 25 ([] : Doc)))
      rawPageEx connectedState envPage rfl⟩

/-- C5: every successful `query_database` envelope satisfies
`returnedCount <= limit` and `totalCount >= returnedCount`. -/
theorem c5_count_bounds :
    ∀ (catalog : List CatalogEntry) (co : Bool) (store : StoreBehavior)
      (raw : RawArgs) (s : ProcState) (env : Envelope),
      (serveCall catalog co store raw s).response = ToolResponse.success env →
      (env.count : Int) ≤ env.limit ∧ env.count ≤ env.totalCount := by
  intro catalog co store raw s env h
  obtain ⟨args, docs, hargs, hstore, henv⟩ := serveCall_success_inv _ _ _ _ _ _ h
  obtain ⟨h1, h2, h3⟩ := zodParseArgs_ok_bounds _ _ hargs
  subst henv
  have hb := buildEnv_count_le args docs
  constructor
  · have hle : ((buildEnv args docs).count : Int) ≤ (args.limit.toNat : Int) := by
      exact_mod_cast hb.1
    have ht : (args.limit.toNat : Int) = args.limit := Int.toNat_of_nonneg (by omega)
    have hlim : (buildEnv args docs).limit = args.limit := rfl
    omega
  · exact hb.2

/-- C5 (witness): the count bounds applied to a concrete successful call
over a 3-document collection with the default limit 100. -/
theorem c5_count_witness :
    ((serveCall catalogAll true (StoreBehavior.ok (List.replicate 3 ([] : Doc)))
        rawUserAll connectedState).response = ToolResponse.success envThree)
      ∧ ((envThree.count : Int) ≤ envThree.limit ∧ envThree.count ≤ envThree.totalCount) :=
  ⟨rfl, c5_count_bounds catalogAll true (StoreBehavior.ok (List.replicate 3 ([] : Doc)))
      rawUserAll connectedState envThree rfl⟩

/-- C6: a `query_database` call naming a model absent from the registered
set returns the failure text identifying the model and listing the
registered names, and the store is never called. -/
theorem c6_unknown_model :
    ∀ (catalog : List CatalogEntry) (co : Bool) (store : StoreBehavior)
      (args : Args) (s : ProcState),
      s.dbConnected = true → s.registered.contains args.model = false →
      (handleQuery catalog co store args s).response
          = ToolResponse.failure (notRegisteredMsg args.model s.registered)
        ∧ (handleQuery catalog co store args s).storeCalled = false := by
  intro catalog co store args s hconn hreg
  simp at hreg
  constructor <;> simp [handleQuery, hconn, hreg]

/-- C6 (witness): the unknown-model failure at the concrete name
`Vehicle` against a registry holding only `User`. -/
theorem c6_unknown_model_witness :
    partialState.dbConnected = true
      ∧ partialState.registered.contains "Vehicle" = false
      ∧ (handleQuery catalogPartial true (StoreBehavior.ok []) argsVehicle
            partialState).response
          = ToolResponse.failure (notRegisteredMsg "Vehicle" ["User"])
      ∧ (handleQuery catalogPartial true (StoreBehavior.ok []) argsVehicle
            partialState).storeCalled = false :=
  ⟨rfl, rfl,
   (c6_unknown_model catalogPartial true (StoreBehavior.ok []) argsVehicle
      partialState rfl rfl).1,
   (c6_unknown_model catalogPartial true (StoreBehavior.ok []) argsVehicle
      partialState rfl rfl).2⟩

/-- C7: after a first `connectDatabase` call completes successfully, a
second call in sequence is a no-op — it returns immediately with the
state, and so the registered-name set, unchanged. -/
theorem c7_connect_idempotent :
    ∀ (catalog : List CatalogEntry) (co : Bool) (s : ProcState),
      (connectDatabase catalog co s).1 = Except.ok () →
      connectDatabase catalog co ((connectDatabase catalog co s).2)
          = (Except.ok (), (connectDatabase catalog co s).2)
        ∧ ((connectDatabase catalog co ((connectDatabase catalog co s).2)).2).registered
            = ((connectDatabase catalog co s).2).registered := by
  intro catalog co s h1
  have hconn : ((connectDatabase catalog co s).2).dbConnected = true := by
    by_cases hd : s.dbConnected
    · simp [connectDatabase, hd]
    · by_cases hco : co
      · simp [connectDatabase, hd, hco, loadModels_dbConnected]
      · simp [connectDatabase, hd, hco] at h1
  have h2 : ∀ t : ProcState, t.dbConnected = true →
      connectDatabase catalog co t = (Except.ok (), t) := by
    intro t ht
    simp [connectDatabase, ht]
  exact ⟨h2 _ hconn, by rw [h2 _ hconn]⟩

/-- C7 (witness): idempotence applied to a concrete first load of the
full catalog from the startup state. -/
theorem c7_connect_idempotent_witness :
    (connectDatabase catalogAll true freshState).1 = Except.ok ()
      ∧ connectDatabase catalogAll true ((connectDatabase catalogAll true freshState).2)
          = (Except.ok (), (connectDatabase catalogAll true freshState).2) :=
  ⟨rfl, (c7_connect_idempotent catalogAll true freshState rfl).1⟩

/-- C8: a store-level failure during query execution is caught by the
handler and returned as a failure text carrying the store's message; the
handler is a total function whose every outcome is data — a success
envelope or a failure text — never an uncaught fault. -/
theorem c8_store_failure_caught :
    (∀ (catalog : List CatalogEntry) (co : Bool) (msg : String)
        (args : Args) (s : ProcState),
      s.dbConnected = true → s.registered.contains args.model = true →
      (handleQuery catalog co (StoreBehavior.fail msg) args s).response
        = ToolResponse.failure ("Database error: " ++ msg))
    ∧ (∀ (catalog : List CatalogEntry) (co : Bool) (store : StoreBehavior)
        (args : Args) (s : ProcState),
      (∃ env, (handleQuery catalog co store args s).response = ToolResponse.success env)
        ∨ (∃ t, (handleQuery catalog co store args s).response = ToolResponse.failure t)) := by
  constructor
  · intro catalog co msg args s hconn hreg
    simp at hreg
    simp [handleQuery, hconn, hreg]
  · intro catalog co store args s
    unfold handleQuery
    split
    · exact Or.inr ⟨_, rfl⟩
    · split
      · cases store with
        | ok docs => exact Or.inl ⟨_, rfl⟩
        | fail msg => exact Or.inr ⟨_, rfl⟩
      · exact Or.inr ⟨_, rfl⟩

/-- C8 (witness): the catch behaviour at a concrete connection-loss
failure on a populated `Booking` query. -/
theorem c8_store_failure_witness :
    connectedState.dbConnected = true
      ∧ connectedState.registered.contains "Booking" = true
      ∧ (handleQuery catalogAll true (StoreBehavior.fail connLossMsg)
            { model := "Booking", query := [], projection := none, sort := none,
              limit := 100, skip := 0, populate := ["guest", "host", "vehicle"] }
            connectedState).response
          = ToolResponse.failure ("Database error: " ++ connLossMsg) :=
  ⟨rfl, rfl,
   c8_store_failure_caught.1 catalogAll true connLossMsg
     { model := "Booking", query := [], projection := none, sort := none,
       limit := 100, skip := 0, populate := ["guest", "host", "vehicle"] }
     connectedState rfl rfl⟩

/-- C9 (counterexample): starting from an unset `NODE_PATH`, `loadModels`
leaves the variable set to the empty string — not the unset value it held
before the call — because the code reads it through `|| ""` and restores
by assignment, refuting exact restoration on every input. -/
theorem c9_claim_counterexample :
    freshState.nodePath = none
      ∧ ((loadModels [] freshState).2).nodePath = some ""
      ∧ ((loadModels [] freshState).2).nodePath ≠ freshState.nodePath :=
  ⟨rfl, rfl, by decide⟩

/-- C9 (amended): on every exit path of `loadModels` — normal completion
and propagated exception alike — `Module.prototype.require` is restored
exactly, and `NODE_PATH` is restored to the string it previously held
whenever it was set; an originally-unset `NODE_PATH` comes back as the
empty string. -/
theorem c9_restore_on_every_exit :
    ∀ (catalog : List CatalogEntry) (s : ProcState),
      ((loadModels catalog s).2).requireFn = s.requireFn
        ∧ ((loadModels catalog s).2).nodePath = some (s.nodePath.getD "") := by
  intro catalog s
  exact ⟨rfl, rfl⟩

/-- C10 (counterexample): with a catalog that registers `User` and then
throws on `Vehicle`, `connectDatabase` propagates the error with
`dbConnected` already true — yet a later call for `User` succeeds rather
than returning the not-registered failure, refuting the claim that after
a loadModels throw every model name gets the not-registered failure. -/
theorem c10_claim_counterexample :
    (connectDatabase catalogPartial true freshState).1 = Except.error "boom"
      ∧ ((connectDatabase catalogPartial true freshState).2).dbConnected = true
      ∧ (handleQuery catalogPartial true (StoreBehavior.ok []) argsUser
            ((connectDatabase catalogPartial true freshState).2)).response
          = ToolResponse.success
              { success := true, model := "User", count := 0, totalCount := 0,
                skip := 0, limit := 100, hasMore := false, results := [] } :=
  ⟨rfl, rfl, rfl⟩

/-- C10 (amended): `dbConnected` is set to true immediately after a
successful connection and before model loading, even when `loadModels`
then throws; once it is true, every later call leaves the state
untouched — skipping connection and loading — and returns the
not-registered failure exactly for model names absent from the
(possibly partially) registered set. -/
theorem c10_flag_monotone_and_skip :
    (∀ (catalog : List CatalogEntry) (s : ProcState),
      s.dbConnected = false →
      ((connectDatabase catalog true s).2).dbConnected = true)
    ∧ (∀ (catalog : List CatalogEntry) (co : Bool) (store : StoreBehavior)
        (args : Args) (s : ProcState),
      s.dbConnected = true →
      (handleQuery catalog co store args s).state = s
        ∧ (s.registered.contains args.model = false →
            (handleQuery catalog co store args s).response
              = ToolResponse.failure (notRegisteredMsg args.model s.registered))) := by
  constructor
  · intro catalog s hd
    simp [connectDatabase, hd, loadModels_dbConnected]
  · intro catalog co store args s hconn
    constructor
    · unfold handleQuery
      simp only [hconn, if_true]
      split
      · cases store <;> rfl
      · rfl
    · intro hreg
      simp at hreg
      simp [handleQuery, hconn, hreg]

/-- C10 (witness): the amended properties at the concrete partially
failing catalog — the flag is set despite the throw, and a later call for
the unregistered `Vehicle` skips loading and reports not-registered. -/
theorem c10_flag_witness :
    freshState.dbConnected = false
      ∧ ((connectDatabase catalogPartial true freshState).2).dbConnected = true
      ∧ partialState.dbConnected = true
      ∧ (handleQuery catalogPartial true (StoreBehavior.ok []) argsVehicle
            partialState).state = partialState
      ∧ partialState.registered.contains "Vehicle" = false
      ∧ (handleQuery catalogPartial true (StoreBehavior.ok []) argsVehicle
            partialState).response
          = ToolResponse.failure (notRegisteredMsg "Vehicle" ["User"]) :=
  ⟨rfl, c10_flag_monotone_and_skip.1 catalogPartial freshState rfl, rfl,
   (c10_flag_monotone_and_skip.2 catalogPartial true (StoreBehavior.ok [])
      argsVehicle partialState rfl).1,
   rfl,
   (c10_flag_monotone_and_skip.2 catalogPartial true (StoreBehavior.ok [])
      argsVehicle partialState rfl).2 rfl⟩
